import Mathlib

/-!
Shallow embedding of `apex_launchtest/apex_runner.py`.

The file models the two classes of the source:

* `_RunnerWorker` — the per-run coordinator.  Its secondary thread routine
  `_run_test` (lines 156-175) is embedded as an event trace
  (`runTestEvents`), and its primary-thread `run` method (lines 59-154) as
  the function `workerRun` over a `WorkerEnv` describing the externally
  determined outcomes (whether the readiness event was set within the
  15-second wait, whether the launch service returned on its own before the
  completion event was set, the results produced by the external unittest
  runner, and the accumulator contents at the time the launch service
  returned).
* `ApexRunner` — `run` (lines 209-219) as `apexRunnerRun` and
  `validate` (lines 221-226) as `validate`.

External collaborators (`LaunchService`, the unittest runner, the
accumulator classes, `parse_launch_arguments`) are abstracted to the data
the coordinator exchanges with them, exactly as they appear at the call
sites in `apex_runner.py`.
-/

/-- Events performed by the secondary thread routine `_run_test`
(`apex_runner.py` lines 156-175), in program order. -/
inductive TEvent where
  /-- the `print` of the startup-timeout message, line 162 -/
  | printTimeoutMsg
  /-- a call to `self._launch_service.shutdown()` (line 163 or 175) -/
  | shutdownCall
  /-- running the pre-shutdown test suite with the external unittest
  runner, lines 168-171 -/
  | runPreTests
  /-- `self._tests_completed.set()`, line 174 -/
  | setTestsCompleted
deriving DecidableEq, Repr

/-- Abstract token for a structured result returned by the external
unittest `TextTestRunner.run` call.  The coordinator never inspects it. -/
structure TestRes where
  tag : Nat
deriving DecidableEq, Repr

/-- A value returned by `_RunnerWorker.run` in one component of the result
pair: either the `FailResult()` constructed on the failure paths
(line 147) or a result produced by the external unittest runner. -/
inductive RunResult where
  | fail
  | res (r : TestRes)
deriving DecidableEq, Repr

/-- A record appended to the process-info accumulator by the on-exit
handler; the fields are the ones `_print_process_output_summary` reads
(`process_name`, `returncode`, `action`).  The launch action identity is
abstracted to a `Nat`. -/
structure ProcInfo where
  process_name : String
  returncode : Int
  action : Nat
deriving DecidableEq, Repr

/-- A value bound into a test suite by the two `self._test_run.bind`
calls (`apex_runner.py` lines 80-113).  The four handle constructors
stand for the identities of the objects created in `run`:
`activeProcInfo` is the `ActiveProcInfoHandler()` instance (line 71),
`procInfoHandler` is its underlying `._proc_info_handler` store
(lines 100, 108), `activeIo` is the `ActiveIoHandler()` instance
(line 72), and `ioHandler` is its underlying `._io_handler` store
(lines 101, 109).  `testArgsVal` carries the launch-argument dictionary
built on lines 76-78, and `contextVal` stands for a caller-supplied value
in the normalized description context. -/
inductive BoundV where
  | activeProcInfo
  | procInfoHandler
  | activeIo
  | ioHandler
  | testArgsVal (m : List (String × String))
  | contextVal (s : String)
deriving DecidableEq, Repr

/-- Association-list lookup, first match wins — the lookup semantics of a
Python dictionary represented as an insertion-ordered list of pairs
without duplicate keys. -/
def alookup {α : Type} (k : String) : List (String × α) → Option α
  | [] => none
  | (q, v) :: rest => if k = q then some v else alookup k rest

/-- Python dictionary item assignment `d[k] = v`: replaces the value in
place if the key is present, appends the pair otherwise. -/
def pyDictSet {α : Type} : List (String × α) → String → α → List (String × α)
  | [], k, v => [(k, v)]
  | (q, w) :: rest, k, v =>
      if q = k then (k, v) :: rest else (q, w) :: pyDictSet rest k v

/-- Python `dict(base, **extra)`: a copy of `base` updated with every
pair of `extra` in order. -/
def pyDictMerge {α : Type} (base extra : List (String × α)) : List (String × α) :=
  extra.foldl (fun d kv => pyDictSet d kv.1 kv.2) base

/-- The `test_args` dictionary built from the parsed launch arguments by
the loop on `apex_runner.py` lines 76-78. -/
def buildTestArgs (parsed : List (String × String)) : List (String × String) :=
  parsed.foldl (fun d kv => pyDictSet d kv.1 kv.2) []

/-- The `injected_attributes` dictionary of the first `bind` call
(pre-shutdown suite, `apex_runner.py` lines 82-86): the live accumulator
handles and the launch-argument dictionary. -/
def preInjectedAttributes (ta : List (String × String)) : List (String × BoundV) :=
  [("proc_info", BoundV.activeProcInfo),
   ("proc_output", BoundV.activeIo),
   ("test_args", BoundV.testArgsVal ta)]

/-- The `injected_attributes` dictionary of the second `bind` call
(post-shutdown suite, `apex_runner.py` lines 99-103): the frozen
underlying accumulator stores and the launch-argument dictionary. -/
def postInjectedAttributes (ta : List (String × String)) : List (String × BoundV) :=
  [("proc_info", BoundV.procInfoHandler),
   ("proc_output", BoundV.ioHandler),
   ("test_args", BoundV.testArgsVal ta)]

/-- The `injected_args` dictionary of the first `bind` call
(`apex_runner.py` lines 87-95): `dict(test_context, **reserved)` with the
three reserved pairs added last, so they override same-named context
entries. -/
def preInjectedArgs (ctx : List (String × BoundV)) (ta : List (String × String)) :
    List (String × BoundV) :=
  pyDictMerge ctx (preInjectedAttributes ta)

/-- The `injected_args` dictionary of the second `bind` call
(`apex_runner.py` lines 104-112). -/
def postInjectedArgs (ctx : List (String × BoundV)) (ta : List (String × String)) :
    List (String × BoundV) :=
  pyDictMerge ctx (postInjectedAttributes ta)

/-- Event trace of `_run_test` (`apex_runner.py` lines 156-175) as a
function of whether `self._processes_launched.wait(timeout=15)` returned
true (the readiness callback ran within the 15-second wait).  On timeout
the routine prints, requests shutdown and returns without touching
`_tests_completed`; otherwise it runs the pre-shutdown suite and, in the
`finally` block, sets `_tests_completed` and then requests shutdown. -/
def runTestEvents (readyWithin15 : Bool) : List TEvent :=
  if readyWithin15 then
    [TEvent.runPreTests, TEvent.setTestsCompleted, TEvent.shutdownCall]
  else
    [TEvent.printTimeoutMsg, TEvent.shutdownCall]

/-- Whether `setTestsCompleted` occurs strictly before the first
`shutdownCall` of a trace — i.e. whether the completion event is already
set at the moment the secondary thread requests the supervisor shutdown
that makes the primary thread's blocking `LaunchService.run` return. -/
def setBeforeShutdown : List TEvent → Bool
  | [] => false
  | TEvent.setTestsCompleted :: _ => true
  | TEvent.shutdownCall :: _ => false
  | _ :: rest => setBeforeShutdown rest

/-- The suffix of a trace after its first `shutdownCall`. -/
def eventsAfterShutdown : List TEvent → List TEvent
  | [] => []
  | TEvent.shutdownCall :: rest => rest
  | _ :: rest => eventsAfterShutdown rest

/-- One printed line of `_print_process_output_summary`
(`apex_runner.py` lines 177-188), kept structured rather than formatted. -/
inductive SummaryLine where
  /-- the line of line 181: process name and exit code -/
  | exitMsg (name : String) (code : Int)
  /-- the delimiting header of line 182 -/
  | header (name : String)
  /-- one captured output chunk printed by the loop of lines 184-185 -/
  | outputLine (text : String)
  /-- the delimiting footer of line 188: a row of `len(name) + 21`
  hash characters -/
  | footer (width : Nat)
deriving DecidableEq, Repr

/-- Lookup of `proc_output[action]`: the accumulator of captured output
keyed by launch action.  `none` models the `KeyError` of line 186. -/
def lookupAction (a : Nat) : List (Nat × List String) → Option (List String)
  | [] => none
  | (q, ios) :: rest => if a = q then some ios else lookupAction a rest

/-- The lines printed for one failed process by the loop body of
`_print_process_output_summary` (`apex_runner.py` lines 181-188): the
exit message, the header, every captured output chunk for the process's
action (none when the lookup raises `KeyError`, which is passed over),
and the footer. -/
def summaryBlock (po : List (Nat × List String)) (p : ProcInfo) : List SummaryLine :=
  [SummaryLine.exitMsg p.process_name p.returncode,
   SummaryLine.header p.process_name]
  ++ (match lookupAction p.action po with
      | some ios => ios.map SummaryLine.outputLine
      | none => [])
  ++ [SummaryLine.footer (p.process_name.length + 21)]

/-- All lines printed by `_print_process_output_summary`
(`apex_runner.py` lines 177-188): one block per process of `proc_info`
whose `returncode` is non-zero, in accumulator order.  The source first
builds `failed_procs` by the comprehension of line 178 and then loops;
this recursion fuses the filter and the loop. -/
def printProcessOutputSummary : List ProcInfo → List (Nat × List String) → List SummaryLine
  | [], _ => []
  | p :: rest, po =>
      if p.returncode ≠ 0 then summaryBlock po p ++ printProcessOutputSummary rest po
      else printProcessOutputSummary rest po

/-- The externally determined outcomes a single `_RunnerWorker.run` call
is exposed to: the normalized description context and parsed launch
arguments, whether the readiness callback fired within the 15-second
wait, whether `LaunchService.run` returned on its own (processes died or
external interruption) while `_tests_completed` was still unset, the two
suite results the external unittest runner would produce, and the
accumulator contents at the time `LaunchService.run` returned. -/
structure WorkerEnv where
  test_context : List (String × BoundV)
  parsed_launch_arguments : List (String × String)
  readyWithin15 : Bool
  earlySupervisorExit : Bool
  preResults : TestRes
  postResults : TestRes
  proc_info_at_exit : List ProcInfo
  proc_output_at_exit : List (Nat × List String)

/-- The observable behaviour of one `_RunnerWorker.run` call: the two
`bind` calls it issues, the secondary thread's event trace, whether the
early-exit message of line 143 was printed, the diagnostic summary lines,
whether the post-shutdown suite was run, and the returned result pair. -/
structure RunReport where
  preBindAttrs : List (String × BoundV)
  preBindArgs : List (String × BoundV)
  postBindAttrs : List (String × BoundV)
  postBindArgs : List (String × BoundV)
  secondaryEvents : List TEvent
  printedEarlyExitMsg : Bool
  summaryLines : List SummaryLine
  postSuiteRan : Bool
  result : RunResult × RunResult

/-- The value of `self._tests_completed.wait(timeout=0)` on
`apex_runner.py` line 140, the non-blocking check performed right after
`LaunchService.run` returns.  If the launch service returned on its own
while the event was unset (`earlySupervisorExit`), the check reads false;
otherwise the launch service returned because the secondary thread called
`shutdown()`, and the check reads true exactly when the trace set
`_tests_completed` before that call. -/
def testsCompletedAtCheck (env : WorkerEnv) : Bool :=
  !env.earlySupervisorExit && setBeforeShutdown (runTestEvents env.readyWithin15)

/-- Embedding of `_RunnerWorker.run` (`apex_runner.py` lines 59-154).
It binds both suites (lines 80-113), starts the secondary thread and the
launch service (lines 137-138), and then branches on the non-blocking
completion check of line 140: if unset it prints the early-exit message,
prints the diagnostic summary and returns `FailResult(), FailResult()`
(lines 143-147); otherwise it runs the post-shutdown suite and returns
`self._results, inactive_results` (lines 149-154). -/
def workerRun (env : WorkerEnv) : RunReport :=
  let ta := buildTestArgs env.parsed_launch_arguments
  { preBindAttrs := preInjectedAttributes ta
    preBindArgs := preInjectedArgs env.test_context ta
    postBindAttrs := postInjectedAttributes ta
    postBindArgs := postInjectedArgs env.test_context ta
    secondaryEvents := runTestEvents env.readyWithin15
    printedEarlyExitMsg := !testsCompletedAtCheck env
    summaryLines :=
      if testsCompletedAtCheck env then []
      else printProcessOutputSummary env.proc_info_at_exit env.proc_output_at_exit
    postSuiteRan := testsCompletedAtCheck env
    result :=
      if testsCompletedAtCheck env then
        (RunResult.res env.preResults, RunResult.res env.postResults)
      else
        (RunResult.fail, RunResult.fail) }

/-- Embedding of `ApexRunner.run` (`apex_runner.py` lines 209-219): the
`for` loop over `self._test_runs` whose body unconditionally returns the
first worker's result pair, so an empty list falls through to the
implicit `None`. -/
def apexRunnerRun : List WorkerEnv → Option (RunResult × RunResult)
  | [] => none
  | env :: _ => some (workerRun env).result

/-- The positional-parameter shape of a run definition's
`test_description_function`: how many positional parameters it has, how
many of those lack a default, and whether it has a `*args` parameter. -/
structure PySignature where
  npos : Nat
  nreq : Nat
  varargs : Bool
deriving DecidableEq, Repr

/-- Whether `inspect.getcallargs(f, lambda: None)` succeeds — that is,
whether `f` can bind exactly one positional argument: at most one
parameter may be required, and there must be a first positional parameter
or a `*args` to receive the argument. -/
def acceptsOneArg (s : PySignature) : Bool :=
  s.nreq ≤ 1 && (1 ≤ s.npos || s.varargs)

/-- An exception escaping `ApexRunner.validate`.  `typeError` is the
`TypeError` raised by `inspect.getcallargs` on a signature mismatch.
Modelled from the spec: `configurationError`, carrying the offending
run's name, is the `ConfigurationError` the spec says `validate` raises;
no such class exists anywhere in `apex_runner.py`, and the constructor is
present only so that the spec's claim about it can be stated. -/
inductive PyError where
  | typeError
  | configurationError (runName : String)
deriving DecidableEq, Repr

/-- Embedding of `ApexRunner.validate` (`apex_runner.py` lines 221-226):
for each run definition in order, `inspect.getcallargs` is applied to its
description function and a one-argument lambda; the first signature
mismatch escapes as the uncaught `TypeError`. -/
def validate : List PySignature → Except PyError Unit
  | [] => Except.ok ()
  | s :: rest => if acceptsOneArg s then validate rest else Except.error PyError.typeError

/-- Whether an outcome of `validate` is the `ConfigurationError` named by
the spec. -/
def isConfigurationError : Except PyError Unit → Bool
  | Except.error (PyError.configurationError _) => true
  | _ => false

/-- Whether a summary line is the exit message for a process of the given
name. -/
def isExitFor (name : String) : SummaryLine → Bool
  | SummaryLine.exitMsg q _ => q = name
  | _ => false

/-- Occurrences of the exit message for a given process name in a list of
summary lines. -/
def countExitFor (name : String) : List SummaryLine → Nat
  | [] => 0
  | l :: rest => (if isExitFor name l then 1 else 0) + countExitFor name rest

/-- Lookup after a Python dictionary item assignment: the assigned key
reads the new value, every other key is unaffected. -/
theorem alookup_pyDictSet {α : Type} (d : List (String × α)) (k q : String) (v : α) :
    alookup q (pyDictSet d k v) = if q = k then some v else alookup q d := by
  induction d with
  | nil =>
      by_cases h : q = k <;> simp [pyDictSet, alookup, h]
  | cons hd tl ih =>
      obtain ⟨k₀, v₀⟩ := hd
      by_cases h₀ : k₀ = k
      · subst h₀
        by_cases h : q = k₀ <;> simp [pyDictSet, alookup, h]
      · by_cases h : q = k₀
        · subst h
          simp [pyDictSet, alookup, h₀, Ne.symm h₀]
        · simp [pyDictSet, alookup, h₀, h, ih]

/-- Sample environment for the startup-timeout path: the readiness
callback never fires. -/
def envTimeout : WorkerEnv :=
  { test_context := [("extra", BoundV.contextVal "v")]
    parsed_launch_arguments := [("arg1", "x")]
    readyWithin15 := false
    earlySupervisorExit := false
    preResults := ⟨0⟩
    postResults := ⟨1⟩
    proc_info_at_exit := [⟨"procA", 1, 0⟩]
    proc_output_at_exit := [] }

/-- Sample environment for the early-exit path: the launch service
returns on its own while the completion event is unset. -/
def envEarly : WorkerEnv :=
  { test_context := []
    parsed_launch_arguments := []
    readyWithin15 := true
    earlySupervisorExit := true
    preResults := ⟨0⟩
    postResults := ⟨1⟩
    proc_info_at_exit := [⟨"procA", 1, 0⟩, ⟨"procB", 0, 1⟩]
    proc_output_at_exit := [(0, ["line1"])] }

/-- C1: if the readiness callback is never invoked, the 15-second wait of
`_run_test` expires, the secondary thread runs no pre-shutdown tests and
requests supervisor shutdown, and `run()` returns two failing results
with neither suite ever executed. -/
theorem startupTimeout_runFails (env : WorkerEnv) (h : env.readyWithin15 = false) :
    TEvent.runPreTests ∉ (workerRun env).secondaryEvents
    ∧ TEvent.shutdownCall ∈ (workerRun env).secondaryEvents
    ∧ (workerRun env).result = (RunResult.fail, RunResult.fail)
    ∧ (workerRun env).postSuiteRan = false := by
  simp [workerRun, testsCompletedAtCheck, runTestEvents, h, setBeforeShutdown]

/-- Witness for C1 at the concrete environment `envTimeout`. -/
theorem startupTimeout_runFails_witness :
    envTimeout.readyWithin15 = false
    ∧ (TEvent.runPreTests ∉ (workerRun envTimeout).secondaryEvents
       ∧ TEvent.shutdownCall ∈ (workerRun envTimeout).secondaryEvents
       ∧ (workerRun envTimeout).result = (RunResult.fail, RunResult.fail)
       ∧ (workerRun envTimeout).postSuiteRan = false) :=
  ⟨rfl, startupTimeout_runFails envTimeout rfl⟩

/-- C2: if the supervisor's blocking run call returns while the
completion event is unset (processes died or external interruption),
`run()` prints the early-exit message and the diagnostic summary, returns
two failing results, and never runs the post-shutdown suite. -/
theorem earlyExit_runFails (env : WorkerEnv) (h : env.earlySupervisorExit = true) :
    (workerRun env).result = (RunResult.fail, RunResult.fail)
    ∧ (workerRun env).postSuiteRan = false
    ∧ (workerRun env).printedEarlyExitMsg = true
    ∧ (workerRun env).summaryLines =
        printProcessOutputSummary env.proc_info_at_exit env.proc_output_at_exit := by
  simp [workerRun, testsCompletedAtCheck, h]

/-- Witness for C2 at the concrete environment `envEarly`. -/
theorem earlyExit_runFails_witness :
    envEarly.earlySupervisorExit = true
    ∧ ((workerRun envEarly).result = (RunResult.fail, RunResult.fail)
       ∧ (workerRun envEarly).postSuiteRan = false
       ∧ (workerRun envEarly).printedEarlyExitMsg = true
       ∧ (workerRun envEarly).summaryLines =
           printProcessOutputSummary envEarly.proc_info_at_exit envEarly.proc_output_at_exit) :=
  ⟨rfl, earlyExit_runFails envEarly rfl⟩

/-- C3 counterexample: on the startup-timeout exit path of `_run_test`
the tests-completed event is never set — its trace contains zero
`setTestsCompleted` events, not exactly one. -/
theorem testsCompleted_timeoutPath_neverSet :
    (runTestEvents false).count TEvent.setTestsCompleted = 0 := by
  decide

/-- C3 amended: the tests-completed event is set at most once on every
exit path of `_run_test`; it is set exactly once on the normal path
(readiness observed) and never on the startup-timeout early return. -/
theorem testsCompleted_setAtMostOnce (b : Bool) :
    (runTestEvents b).count TEvent.setTestsCompleted = (if b then 1 else 0)
    ∧ (runTestEvents b).count TEvent.setTestsCompleted ≤ 1 := by
  cases b <;> exact ⟨by decide, by decide⟩

/-- C4 counterexample: on the startup-timeout path the secondary thread
requests supervisor shutdown without the completion event having been
set. -/
theorem shutdownWithoutCompletion_timeoutPath :
    TEvent.shutdownCall ∈ runTestEvents false
    ∧ setBeforeShutdown (runTestEvents false) = false := by
  decide

/-- C4 amended: the secondary thread requests shutdown on every path; the
completion event is set before the shutdown request exactly on the normal
path, and on no path is it set after the shutdown request, so its final
state is determined before the supervisor call returns. -/
theorem completionBeforeShutdown_amended (b : Bool) :
    TEvent.shutdownCall ∈ runTestEvents b
    ∧ setBeforeShutdown (runTestEvents b) = b
    ∧ TEvent.setTestsCompleted ∉ eventsAfterShutdown (runTestEvents b) := by
  cases b <;> decide

/-- Validation succeeds exactly when every run definition's description
function can bind the single readiness-callback argument. -/
theorem validate_ok_iff (runs : List PySignature) :
    validate runs = Except.ok () ↔ ∀ s ∈ runs, acceptsOneArg s = true := by
  induction runs with
  | nil => simp [validate]
  | cons s rest ih =>
      cases h : acceptsOneArg s with
      | true => simp [validate, h, ih]
      | false => simp [validate, h]

/-- The only exception `validate` can raise is the `TypeError` of
`inspect.getcallargs`. -/
theorem validate_error_shape (runs : List PySignature) (h : validate runs ≠ Except.ok ()) :
    validate runs = Except.error PyError.typeError := by
  induction runs with
  | nil => simp [validate] at h
  | cons s rest ih =>
      cases hs : acceptsOneArg s with
      | true =>
          simp only [validate, hs, if_true] at h ⊢
          exact ih h
      | false => simp [validate, hs]

/-- C5 counterexample: for a run definition whose description function
takes zero parameters, `validate` raises the plain `TypeError` of
`inspect.getcallargs`; it does not raise the `ConfigurationError` the
claim names (no such class exists in the code), and it names no run. -/
theorem validate_zeroParam_counterexample :
    validate [⟨0, 0, false⟩] = Except.error PyError.typeError
    ∧ isConfigurationError (validate [⟨0, 0, false⟩]) = false :=
  ⟨rfl, rfl⟩

/-- C5 amended: `validate` fails for any run definition whose description
function cannot bind a single readiness-callback argument (in particular
one taking zero parameters) and succeeds when every definition's function
takes exactly one parameter, but the error raised is the signature
inspection's `TypeError`, which names no run, not a `ConfigurationError`. -/
theorem validate_signature_amended (runs : List PySignature) :
    (validate runs = Except.ok () ↔ ∀ s ∈ runs, acceptsOneArg s = true)
    ∧ (validate runs ≠ Except.ok () → validate runs = Except.error PyError.typeError)
    ∧ acceptsOneArg ⟨1, 1, false⟩ = true
    ∧ acceptsOneArg ⟨0, 0, false⟩ = false :=
  ⟨validate_ok_iff runs, validate_error_shape runs, rfl, rfl⟩

/-- Witness for C5 amended: a one-parameter definition validates, a
zero-parameter one raises the `TypeError`. -/
theorem validate_signature_amended_witness :
    validate [⟨1, 1, false⟩] = Except.ok ()
    ∧ validate [⟨0, 0, false⟩] = Except.error PyError.typeError :=
  ⟨(validate_signature_amended [⟨1, 1, false⟩]).1.mpr (by decide),
   (validate_signature_amended [⟨0, 0, false⟩]).2.1 (fun hx => nomatch hx)⟩

/-- C7: for every non-empty list of run definitions, `ApexRunner.run`
constructs a worker for the first definition only and returns its result
pair immediately; the remaining definitions are never consulted. -/
theorem apexRunnerRun_first (env : WorkerEnv) (rest : List WorkerEnv) :
    apexRunnerRun (env :: rest) = some (workerRun env).result
    ∧ apexRunnerRun (env :: rest) = apexRunnerRun [env] :=
  ⟨rfl, rfl⟩

/-- C9: for the empty list of run definitions the loop body of
`ApexRunner.run` never executes and the function returns Python's
implicit `None` — no result pair at all. -/
theorem apexRunnerRun_empty : apexRunnerRun ([] : List WorkerEnv) = none :=
  rfl

/-- Lookup in the pre-shutdown `injected_args` dictionary: the three
reserved names read the coordinator-supplied live handles and argument
mapping, every other name reads the description's context value. -/
theorem alookup_preInjectedArgs (ctx : List (String × BoundV))
    (ta : List (String × String)) (k : String) :
    alookup k (preInjectedArgs ctx ta) =
      if k = "proc_info" then some BoundV.activeProcInfo
      else if k = "proc_output" then some BoundV.activeIo
      else if k = "test_args" then some (BoundV.testArgsVal ta)
      else alookup k ctx := by
  by_cases h₁ : k = "proc_info" <;> by_cases h₂ : k = "proc_output" <;>
    by_cases h₃ : k = "test_args" <;>
    simp [preInjectedArgs, pyDictMerge, preInjectedAttributes, List.foldl,
      alookup_pyDictSet, h₁, h₂, h₃]

/-- Lookup in the post-shutdown `injected_args` dictionary: the three
reserved names read the frozen underlying stores and argument mapping,
every other name reads the description's context value. -/
theorem alookup_postInjectedArgs (ctx : List (String × BoundV))
    (ta : List (String × String)) (k : String) :
    alookup k (postInjectedArgs ctx ta) =
      if k = "proc_info" then some BoundV.procInfoHandler
      else if k = "proc_output" then some BoundV.ioHandler
      else if k = "test_args" then some (BoundV.testArgsVal ta)
      else alookup k ctx := by
  by_cases h₁ : k = "proc_info" <;> by_cases h₂ : k = "proc_output" <;>
    by_cases h₃ : k = "test_args" <;>
    simp [postInjectedArgs, pyDictMerge, postInjectedAttributes, List.foldl,
      alookup_pyDictSet, h₁, h₂, h₃]

/-- C6: the pre-shutdown suite is bound to the live accumulator handles
and the post-shutdown suite to the frozen underlying stores; both suites
receive `proc_info`, `proc_output` and `test_args` both as injected
attributes and as injected keyword arguments, and every other injected
keyword argument is the normalized description's context value. -/
theorem binding_injection (env : WorkerEnv) :
    (workerRun env).preBindAttrs =
      [("proc_info", BoundV.activeProcInfo),
       ("proc_output", BoundV.activeIo),
       ("test_args", BoundV.testArgsVal (buildTestArgs env.parsed_launch_arguments))]
    ∧ (workerRun env).postBindAttrs =
      [("proc_info", BoundV.procInfoHandler),
       ("proc_output", BoundV.ioHandler),
       ("test_args", BoundV.testArgsVal (buildTestArgs env.parsed_launch_arguments))]
    ∧ (∀ k : String,
        alookup k (workerRun env).preBindArgs =
          if k = "proc_info" then some BoundV.activeProcInfo
          else if k = "proc_output" then some BoundV.activeIo
          else if k = "test_args" then
            some (BoundV.testArgsVal (buildTestArgs env.parsed_launch_arguments))
          else alookup k env.test_context)
    ∧ (∀ k : String,
        alookup k (workerRun env).postBindArgs =
          if k = "proc_info" then some BoundV.procInfoHandler
          else if k = "proc_output" then some BoundV.ioHandler
          else if k = "test_args" then
            some (BoundV.testArgsVal (buildTestArgs env.parsed_launch_arguments))
          else alookup k env.test_context) :=
  ⟨rfl, rfl,
   fun k => alookup_preInjectedArgs env.test_context _ k,
   fun k => alookup_postInjectedArgs env.test_context _ k⟩

/-- Sample environment whose description context shadows exactly one
reserved name, `proc_info`, next to an ordinary entry. -/
def envCtxReserved : WorkerEnv :=
  { test_context := [("proc_info", BoundV.contextVal "user_pi"),
                     ("extra", BoundV.contextVal "e")]
    parsed_launch_arguments := []
    readyWithin15 := true
    earlySupervisorExit := false
    preResults := ⟨2⟩
    postResults := ⟨3⟩
    proc_info_at_exit := []
    proc_output_at_exit := [] }

/-- C10: whenever the normalized context contains an entry under any one
of the reserved names `proc_info`, `proc_output` or `test_args`, the
injected keyword arguments bound to both suites map that name to the
coordinator-supplied handle (live for the pre-shutdown suite, frozen for
the post-shutdown suite) or argument mapping, overriding the context's
own same-named value. -/
theorem reserved_context_overridden (env : WorkerEnv) (k : String) (v : BoundV)
    (hk : k = "proc_info" ∨ k = "proc_output" ∨ k = "test_args")
    (hv : alookup k env.test_context = some v) :
    alookup k (workerRun env).preBindArgs =
      (if k = "proc_info" then some BoundV.activeProcInfo
       else if k = "proc_output" then some BoundV.activeIo
       else some (BoundV.testArgsVal (buildTestArgs env.parsed_launch_arguments)))
    ∧ alookup k (workerRun env).postBindArgs =
      (if k = "proc_info" then some BoundV.procInfoHandler
       else if k = "proc_output" then some BoundV.ioHandler
       else some (BoundV.testArgsVal (buildTestArgs env.parsed_launch_arguments))) := by
  have hpre : (workerRun env).preBindArgs =
      preInjectedArgs env.test_context (buildTestArgs env.parsed_launch_arguments) := rfl
  have hpost : (workerRun env).postBindArgs =
      postInjectedArgs env.test_context (buildTestArgs env.parsed_launch_arguments) := rfl
  rcases hk with hk | hk | hk <;> subst hk <;>
    simp [hpre, hpost, alookup_preInjectedArgs, alookup_postInjectedArgs]

/-- Witness for C10 at the concrete environment `envCtxReserved`, whose
context shadows only the reserved name `proc_info`. -/
theorem reserved_context_overridden_witness :
    (("proc_info" = "proc_info" ∨ "proc_info" = "proc_output" ∨ "proc_info" = "test_args")
     ∧ alookup "proc_info" envCtxReserved.test_context = some (BoundV.contextVal "user_pi"))
    ∧ (alookup "proc_info" (workerRun envCtxReserved).preBindArgs = some BoundV.activeProcInfo
       ∧ alookup "proc_info" (workerRun envCtxReserved).postBindArgs =
           some BoundV.procInfoHandler) :=
  ⟨⟨Or.inl rfl, rfl⟩,
   by simpa using
     reserved_context_overridden envCtxReserved "proc_info" (BoundV.contextVal "user_pi")
       (Or.inl rfl) rfl⟩

/-- Counting exit messages distributes over list append. -/
theorem countExitFor_append (name : String) (a b : List SummaryLine) :
    countExitFor name (a ++ b) = countExitFor name a + countExitFor name b := by
  induction a with
  | nil => simp [countExitFor]
  | cons l rest ih => simp [countExitFor, ih, Nat.add_assoc]

/-- Captured output lines are never exit messages. -/
theorem countExitFor_outputLines (name : String) (ios : List String) :
    countExitFor name (ios.map SummaryLine.outputLine) = 0 := by
  induction ios with
  | nil => rfl
  | cons t rest ih => simp [countExitFor, isExitFor, ih]

/-- One summary block contains exactly one exit message, the one for its
own process. -/
theorem countExitFor_summaryBlock (po : List (Nat × List String)) (q : ProcInfo)
    (name : String) :
    countExitFor name (summaryBlock po q) = if q.process_name = name then 1 else 0 := by
  unfold summaryBlock
  cases h : lookupAction q.action po with
  | none =>
      by_cases hn : q.process_name = name <;>
        simp [countExitFor_append, countExitFor, isExitFor, hn]
  | some ios =>
      by_cases hn : q.process_name = name <;>
        simp [countExitFor_append, countExitFor, isExitFor, hn, countExitFor_outputLines]

/-- A process name that occurs nowhere in the accumulator has no exit
message in the summary. -/
theorem countExitFor_summary_notMem (pi : List ProcInfo) (po : List (Nat × List String))
    (name : String) (h : name ∉ pi.map ProcInfo.process_name) :
    countExitFor name (printProcessOutputSummary pi po) = 0 := by
  induction pi with
  | nil => rfl
  | cons q rest ih =>
      rw [List.map_cons, List.mem_cons] at h
      push_neg at h
      obtain ⟨hq, hrest⟩ := h
      unfold printProcessOutputSummary
      by_cases hr : q.returncode ≠ 0
      · simp [hr, countExitFor_append, countExitFor_summaryBlock, Ne.symm hq, ih hrest]
      · simp [hr, ih hrest]

/-- With pairwise-distinct process names, the summary holds the exit
message of a process exactly once when its exit code is non-zero, and not
at all when it is zero. -/
theorem countExitFor_summary (pi : List ProcInfo) (po : List (Nat × List String))
    (p : ProcInfo) (hnd : (pi.map ProcInfo.process_name).Nodup) (hp : p ∈ pi) :
    countExitFor p.process_name (printProcessOutputSummary pi po) =
      if p.returncode ≠ 0 then 1 else 0 := by
  induction pi with
  | nil => cases hp
  | cons q rest ih =>
      rw [List.map_cons, List.nodup_cons] at hnd
      obtain ⟨hq, hrest⟩ := hnd
      rcases List.mem_cons.mp hp with hpq | hpr
      · subst hpq
        have hnm : p.process_name ∉ rest.map ProcInfo.process_name := hq
        unfold printProcessOutputSummary
        by_cases hr : p.returncode ≠ 0
        · simp [hr, countExitFor_append, countExitFor_summaryBlock,
            countExitFor_summary_notMem rest po p.process_name hnm]
        · simp [hr, countExitFor_summary_notMem rest po p.process_name hnm]
      · have hne : q.process_name ≠ p.process_name := by
          intro he
          exact hq (he ▸ List.mem_map_of_mem ProcInfo.process_name hpr)
        unfold printProcessOutputSummary
        by_cases hr : q.returncode ≠ 0
        · simp [hr, countExitFor_append, countExitFor_summaryBlock, hne, ih hrest hpr]
        · simp [hr, ih hrest hpr]

/-- The block of every failed process appears contiguously in the
summary. -/
theorem summaryBlock_infix (pi : List ProcInfo) (po : List (Nat × List String))
    (p : ProcInfo) (hp : p ∈ pi) (hr : p.returncode ≠ 0) :
    ∃ l r, printProcessOutputSummary pi po = l ++ summaryBlock po p ++ r := by
  induction pi with
  | nil => cases hp
  | cons q rest ih =>
      rcases List.mem_cons.mp hp with hpq | hpr
      · subst hpq
        exact ⟨[], printProcessOutputSummary rest po, by simp [printProcessOutputSummary, hr]⟩
      · obtain ⟨l, r, he⟩ := ih hpr
        by_cases hq : q.returncode ≠ 0
        · exact ⟨summaryBlock po q ++ l, r, by simp [printProcessOutputSummary, hq, he]⟩
        · exact ⟨l, r, by simp [printProcessOutputSummary, hq, he]⟩

/-- C8: on the early-exit path the diagnostic summary prints the name and
exit code of every process whose exit code is non-zero exactly once — and
of no other process — followed, between the delimiting header and footer,
by every captured output line attributed to its launch action; a process
with no captured output gets an empty block between header and footer
rather than an error. -/
theorem summary_per_failed_process (pi : List ProcInfo) (po : List (Nat × List String))
    (p : ProcInfo) (hnd : (pi.map ProcInfo.process_name).Nodup) (hp : p ∈ pi) :
    (p.returncode ≠ 0 →
       countExitFor p.process_name (printProcessOutputSummary pi po) = 1
       ∧ ∃ l r, printProcessOutputSummary pi po = l ++ summaryBlock po p ++ r)
    ∧ (p.returncode = 0 →
       countExitFor p.process_name (printProcessOutputSummary pi po) = 0)
    ∧ (lookupAction p.action po = none →
       summaryBlock po p =
         [SummaryLine.exitMsg p.process_name p.returncode,
          SummaryLine.header p.process_name,
          SummaryLine.footer (p.process_name.length + 21)]) := by
  refine ⟨fun hr => ⟨?_, summaryBlock_infix pi po p hp hr⟩, fun hr => ?_, fun hl => ?_⟩
  · rw [countExitFor_summary pi po p hnd hp]
    simp [hr]
  · rw [countExitFor_summary pi po p hnd hp]
    simp [hr]
  · simp [summaryBlock, hl]

/-- Witness for C8: in a two-process accumulator where only `procA`
failed, the summary names `procA` exactly once. -/
theorem summary_per_failed_process_witness :
    countExitFor "procA"
      (printProcessOutputSummary
        [⟨"procA", 1, 0⟩, ⟨"procB", 0, 1⟩] [(1, ["out"])]) = 1 :=
  ((summary_per_failed_process [⟨"procA", 1, 0⟩, ⟨"procB", 0, 1⟩] [(1, ["out"])]
      ⟨"procA", 1, 0⟩ (by decide) (by decide)).1 (by decide)).1
